import Mathlib

/-!
Verification development for the multi-provider request-throttling and
backoff layer of the Fork-Ai repository.

The development shallowly embeds two Python source files:

* `ai_scientist/utils/rate_limiter.py` — the `APIRateLimiter` class
  (per-provider rolling request counts, burst checks, flipped-lognormal
  jitter, and the backoff reset hook `handle_backoff`);
* `ai_scientist/rate_limit.py` — the `RateLimitHandler` class (provider
  key resolution, the `backoff.on_exception`-decorated wrapper with its
  retried-exception tuple and minimum-interval enforcement).

Time, delays and random draws are modelled as rationals; Python dicts
become functions `String → Option _`; the wall clock and the random
draw are explicit parameters.  Exceptions raised by a wrapped operation
become an explicit error type.  The semantics of the third-party
`backoff` library (not part of the repository) is modelled from the
specification of `backoff.on_exception` with `backoff.expo`: up to
`max_tries` total calls, a wait of `base ^ n` (base 2, n starting at 0)
between consecutive calls, the `on_backoff` callback invoked once per
backoff cycle, and the last exception propagated on give-up.
-/

/-- Dictionary update: Python `d[k] = v` on a dict modelled as
`String → Option α`. -/
def setKey {α : Type} (f : String → Option α) (k : String) (v : α) :
    String → Option α :=
  fun q => if q = k then some v else f q

/-- `RateLimitConfig` dataclass from `rate_limiter.py`: requests-per-minute
ceiling, burst limit, and the jitter delay bounds (defaults 0.1 and 1.0). -/
structure RateLimitConfig where
  requests_per_minute : ℚ
  burst_limit : ℕ
  min_delay : ℚ := 1/10
  max_delay : ℚ := 1
deriving DecidableEq

/-- The fixed policy table built in `APIRateLimiter.__init__`
(`self.rate_limits`).  Keys absent from the dict map to `none`. -/
def rate_limits : String → Option RateLimitConfig := fun p =>
  if p = "anthropic" then some ⟨45, 3, 1/10, 1⟩
  else if p = "openai" then some ⟨60, 5, 1/10, 1⟩
  else if p = "semantic_scholar" then some ⟨30, 2, 1/10, 1⟩
  else if p = "scopus" then some ⟨20, 2, 1/10, 1⟩
  else if p = "taylor_francis" then some ⟨15, 1, 1/10, 1⟩
  else none

/-- Mutable state of an `APIRateLimiter` instance: the dicts
`self.last_request_time` and `self.request_counts`. -/
structure LimiterState where
  last_request_time : String → Option ℚ
  request_counts : String → Option ℕ

/-- Freshly constructed `APIRateLimiter`: both dicts empty. -/
def emptyLimiter : LimiterState :=
  { last_request_time := fun _ => none, request_counts := fun _ => none }

/-- `APIRateLimiter._generate_delay`: clamp the raw lognormal draw into
`[min_delay, max_delay]` and flip it.  The draw itself is an explicit
parameter `raw`. -/
def generate_delay (config : RateLimitConfig) (raw : ℚ) : ℚ :=
  let delay := max config.min_delay (min config.max_delay raw)
  config.max_delay - delay + config.min_delay

/-- `APIRateLimiter._update_request_count` at wall-clock time
`current_time`: initialize the provider entries on first touch, reset the
count (and the stored timestamp) when 60 seconds have passed since the
stored timestamp, then increment the count. -/
def update_request_count (provider : String) (current_time : ℚ)
    (s : LimiterState) : LimiterState :=
  let s1 :=
    if (s.request_counts provider).isNone then
      { last_request_time := setKey s.last_request_time provider current_time,
        request_counts := setKey s.request_counts provider 0 }
    else s
  let s2 :=
    if current_time - ((s1.last_request_time provider).getD 0) ≥ 60 then
      { last_request_time := setKey s1.last_request_time provider current_time,
        request_counts := setKey s1.request_counts provider 0 }
    else s1
  { s2 with
    request_counts :=
      setKey s2.request_counts provider
        (((s2.request_counts provider).getD 0) + 1) }

/-- `APIRateLimiter._check_rate_limit` at wall-clock time `current_time`,
with random draw `raw`, over policy table `table` (`self.rate_limits`).
Returns `(is_limited, delay)`.  A provider absent from the table yields
`(false, 0)` after a warning log. -/
def check_rate_limit (table : String → Option RateLimitConfig)
    (provider : String) (current_time raw : ℚ) (s : LimiterState) :
    Bool × ℚ :=
  match table provider with
  | none => (false, 0)
  | some config =>
    let last_time := (s.last_request_time provider).getD 0
    let count := (s.request_counts provider).getD 0
    if count ≥ config.burst_limit then
      let delay_needed := 60 / config.requests_per_minute
      let time_passed := current_time - last_time
      if time_passed < delay_needed then
        (true, delay_needed - time_passed)
      else
        (false, generate_delay config raw)
    else
      (false, generate_delay config raw)

/-- `APIRateLimiter.handle_request`: check the rate limit at time `t1`,
sleep the indicated delay (returned as the first component: the limited
delay, or the jitter delay when positive, else no sleep), then run
`_update_request_count` at time `t2` (the clock after the sleep). -/
def handle_request (table : String → Option RateLimitConfig)
    (provider : String) (t1 t2 raw : ℚ) (s : LimiterState) :
    ℚ × LimiterState :=
  let r := check_rate_limit table provider t1 raw s
  let sleepAmount := if r.1 then r.2 else if r.2 > 0 then r.2 else 0
  (sleepAmount, update_request_count provider t2 s)

/-- `APIRateLimiter.handle_backoff` at wall-clock time `now`: the provider
is read from the details dict (`details.get` with fallback to the string
`unknown`); its request count is reset to 0 and its stored timestamp set
to now. -/
def handle_backoff (details_provider : Option String) (now : ℚ)
    (s : LimiterState) : LimiterState :=
  let provider := details_provider.getD "unknown"
  { last_request_time := setKey s.last_request_time provider now,
    request_counts := setKey s.request_counts provider 0 }

/-- Exceptions a wrapped operation can raise, as classified by
`rate_limit.py`: the three provider rate-limit exception classes named in
the decorator tuple, a `requests.exceptions.HTTPError` carrying its HTTP
status code, and any other exception. -/
inductive PyError where
  | openaiRateLimit
  | anthropicRateLimit
  | resourceExhausted
  | httpError (status : ℕ)
  | otherError (msg : String)
deriving DecidableEq

/-- The exception tuple passed to `backoff.on_exception` in
`RateLimitHandler.handle_rate_limit`: `openai.RateLimitError`,
`anthropic.RateLimitError`, `google.api_core.exceptions.ResourceExhausted`
and `requests.exceptions.HTTPError` (every status, not only 429). -/
def retriedByDecorator : PyError → Bool
  | .openaiRateLimit => true
  | .anthropicRateLimit => true
  | .resourceExhausted => true
  | .httpError _ => true
  | .otherError _ => false

/-- The specification's classification predicate for provider rate-limit
failures: the closed set HTTP 429 / provider rate-limit exception /
resource-exhausted.  Stated from the spec's words, for comparison with
`retriedByDecorator`. -/
def isRateLimitFailureSpec : PyError → Bool
  | .openaiRateLimit => true
  | .anthropicRateLimit => true
  | .resourceExhausted => true
  | .httpError status => status == 429
  | .otherError _ => false

/-- Calls into the Throttle (`APIRateLimiter`) that a backoff callback
could perform. -/
inductive ThrottleCall where
  | resetWindow (provider : String)
deriving DecidableEq

/-- The `on_backoff` callback installed by
`RateLimitHandler.handle_rate_limit`: a lambda that only calls
`self.logger.warning`; it performs no Throttle calls at all. -/
def rateLimitOnBackoff : List ThrottleCall := []

deriving instance DecidableEq for Except

/-- Outcome of one decorated call: the returned value or propagated
exception, the number of calls made to the wrapped function, the waits
slept between consecutive calls, and the Throttle calls performed by the
`on_backoff` callback. -/
structure RunResult (α : Type) where
  result : Except PyError α
  tries : ℕ
  waits : List ℚ
  throttleCalls : List ThrottleCall
deriving DecidableEq

/-- Modelled from the spec: the retry loop of the third-party
`backoff.on_exception(backoff.expo, ...)` decorator (the library is not
part of the repository).  `op n` is the outcome of the wrapped function
on its `n`-th call (0-based); `fuel` is the number of tries still
allowed.  On an exception in the retried set with tries remaining, wait
`2 ^ attempt` seconds, run the `on_backoff` callback, and call again; on
any other exception, or when the try budget is exhausted, propagate the
last exception. -/
def backoffRunAux {α : Type} (retried : PyError → Bool)
    (onBackoff : List ThrottleCall) (op : ℕ → Except PyError α) :
    (attempt : ℕ) → (fuel : ℕ) → RunResult α
  | _, 0 => ⟨.error (.otherError "no tries allowed"), 0, [], []⟩
  | attempt, fuel + 1 =>
    match op attempt with
    | .ok a => ⟨.ok a, 1, [], []⟩
    | .error e =>
      if retried e ∧ fuel ≠ 0 then
        let rest := backoffRunAux retried onBackoff op (attempt + 1) fuel
        ⟨rest.result, rest.tries + 1, ((2 : ℚ) ^ attempt) :: rest.waits,
          onBackoff ++ rest.throttleCalls⟩
      else
        ⟨.error e, 1, [], []⟩

/-- One invocation of a function decorated with
`backoff.on_exception(backoff.expo, tuple, max_tries=maxTries,
on_backoff=...)`. -/
def backoffRun {α : Type} (retried : PyError → Bool)
    (onBackoff : List ThrottleCall) (op : ℕ → Except PyError α)
    (maxTries : ℕ) : RunResult α :=
  backoffRunAux retried onBackoff op 0 maxTries

/-- Substring test on character lists: Python `pat in s`. -/
def listContains (pat : List Char) : List Char → Bool
  | [] => pat.isEmpty
  | c :: t => pat.isPrefixOf (c :: t) || listContains pat t

/-- Python substring containment `pat in s` on strings. -/
def strContains (s pat : String) : Bool := listContains pat.data s.data

/-- Python `s.startswith(pat)` on strings, via the character lists. -/
def strStartsWith (s pat : String) : Bool := pat.data.isPrefixOf s.data

/-- `RateLimitHandler._get_provider_key`: ordered first-match substring
rules mapping a model name to a provider key. -/
def get_provider_key (model : String) : String :=
  if strContains model "gpt" || strStartsWith model "o1-" then "openai"
  else if strContains model "claude" then "anthropic"
  else if strContains model "gemini" then "google"
  else if strContains model "grok" then "xai"
  else "default"

/-- `RateLimitHandler.__init__`: the `self._min_request_interval` dict of
per-provider minimum spacings in seconds. -/
def min_request_interval : String → Option ℚ := fun p =>
  if p = "openai" then some 1
  else if p = "anthropic" then some (1/2)
  else if p = "google" then some 1
  else if p = "xai" then some 1
  else if p = "semantic_scholar" then some 1
  else if p = "default" then some 1
  else none

/-- Mutable state of a `RateLimitHandler` instance relevant to the
wrapper: the `self._last_request_time` dict.
`_ensure_provider_initialized` seeds a missing provider entry with 0, so
the dict is modelled as a total map defaulting to 0. -/
structure HandlerState where
  last_request_time : String → ℚ

/-- The body of the decorated `wrapper` in
`RateLimitHandler.handle_rate_limit`, run at wall-clock time `now` with
the wrapped call finishing at time `opEnd` and outcome `outcome`:
enforce the minimum inter-request interval (sleeping `wait`), run the
operation, and update `self._last_request_time[provider]` only on
success; on an exception, re-raise with the state unchanged.  Returns
(outcome, wait slept, new state). -/
def wrapper_body {α : Type} (provider : String) (now opEnd : ℚ)
    (outcome : Except PyError α) (s : HandlerState) :
    Except PyError α × ℚ × HandlerState :=
  let min_interval :=
    (min_request_interval provider).getD
      ((min_request_interval "default").getD 0)
  let time_since_last := now - s.last_request_time provider
  let wait_time :=
    if time_since_last < min_interval then min_interval - time_since_last
    else 0
  match outcome with
  | .ok a =>
    (.ok a, wait_time,
      { last_request_time :=
          fun q => if q = provider then opEnd else s.last_request_time q })
  | .error e => (.error e, wait_time, s)

/-- Step equation for `backoffRunAux` when the current call raises `e`. -/
lemma backoffRunAux_succ_err {α : Type} (op : ℕ → Except PyError α)
    (attempt fuel : ℕ) (e : PyError) (he : op attempt = Except.error e) :
    backoffRunAux retriedByDecorator rateLimitOnBackoff op attempt (fuel + 1) =
      if retriedByDecorator e = true ∧ fuel ≠ 0 then
        ⟨(backoffRunAux retriedByDecorator rateLimitOnBackoff op (attempt + 1)
            fuel).result,
         (backoffRunAux retriedByDecorator rateLimitOnBackoff op (attempt + 1)
            fuel).tries + 1,
         ((2:ℚ) ^ attempt) ::
           (backoffRunAux retriedByDecorator rateLimitOnBackoff op (attempt + 1)
             fuel).waits,
         rateLimitOnBackoff ++
           (backoffRunAux retriedByDecorator rateLimitOnBackoff op (attempt + 1)
             fuel).throttleCalls⟩
      else ⟨Except.error e, 1, [], []⟩ := by
  rw [backoffRunAux, he]

/-- An exception outside the decorator tuple propagates at once: one call,
no waits, no backoff callbacks. -/
lemma backoffRunAux_nonretried {α : Type} (op : ℕ → Except PyError α)
    (e : PyError) (attempt fuel : ℕ) (hf : fuel ≠ 0)
    (h0 : op attempt = Except.error e) (hr : retriedByDecorator e = false) :
    backoffRunAux retriedByDecorator rateLimitOnBackoff op attempt fuel =
      ⟨Except.error e, 1, [], []⟩ := by
  cases fuel with
  | zero => exact absurd rfl hf
  | succ n =>
    rw [backoffRunAux, h0]
    exact if_neg (by simp [hr])

/-- The logging-only `on_backoff` lambda of `rate_limit.py` never performs
a Throttle call, on any run. -/
lemma backoffRunAux_calls_nil {α : Type} (op : ℕ → Except PyError α) :
    ∀ fuel attempt,
      (backoffRunAux retriedByDecorator rateLimitOnBackoff op attempt
        fuel).throttleCalls = [] := by
  intro fuel
  induction fuel with
  | zero => intro attempt; rfl
  | succ n ih =>
    intro attempt
    rw [backoffRunAux]
    split
    · rfl
    · split
      · show rateLimitOnBackoff ++
          (backoffRunAux retriedByDecorator rateLimitOnBackoff op (attempt + 1)
            n).throttleCalls = []
        rw [ih (attempt + 1)]
        rfl
      · rfl

/-- When every call raises a retried exception, the run makes exactly
`fuel` calls, waits `2 ^ n` before each retry, and propagates the last
exception. -/
lemma backoffRunAux_all_retried {α : Type} (op : ℕ → Except PyError α)
    (h : ∀ n, ∃ e, op n = Except.error e ∧ retriedByDecorator e = true) :
    ∀ fuel attempt, fuel ≠ 0 →
      (backoffRunAux retriedByDecorator rateLimitOnBackoff op attempt fuel).tries
          = fuel ∧
      (backoffRunAux retriedByDecorator rateLimitOnBackoff op attempt fuel).waits
          = (List.range (fuel - 1)).map (fun i => (2:ℚ) ^ (attempt + i)) ∧
      (backoffRunAux retriedByDecorator rateLimitOnBackoff op attempt fuel).result
          = op (attempt + fuel - 1) := by
  intro fuel
  induction fuel with
  | zero => intro attempt hf; exact absurd rfl hf
  | succ n ih =>
    intro attempt _
    obtain ⟨e, he, hr⟩ := h attempt
    rw [backoffRunAux_succ_err op attempt n e he]
    cases n with
    | zero =>
      rw [if_neg (by simp)]
      exact ⟨rfl, by simp, he.symm⟩
    | succ m =>
      obtain ⟨ht, hw, hres⟩ := ih (attempt + 1) (Nat.succ_ne_zero m)
      rw [if_pos ⟨hr, Nat.succ_ne_zero m⟩]
      refine ⟨?_, ?_, ?_⟩
      · show (backoffRunAux retriedByDecorator rateLimitOnBackoff op (attempt + 1)
            (m + 1)).tries + 1 = m + 1 + 1
        rw [ht]
      · show ((2:ℚ) ^ attempt) ::
            (backoffRunAux retriedByDecorator rateLimitOnBackoff op (attempt + 1)
              (m + 1)).waits = _
        rw [hw, show m + 1 + 1 - 1 = m + 1 from rfl, List.range_succ_eq_map,
          List.map_cons, List.map_map]
        congr 1
        · refine List.map_congr_left ?_
          intro i _
          simp only [Function.comp_apply, Nat.succ_eq_add_one]
          congr 1
          omega
      · show (backoffRunAux retriedByDecorator rateLimitOnBackoff op (attempt + 1)
            (m + 1)).result = op (attempt + (m + 1 + 1) - 1)
        rw [hres]
        congr 1
        omega

/-- Claim C1, counterexample: an HTTP 500 `requests.exceptions.HTTPError`
is not in the specification's closed rate-limit set, yet the decorated
wrapper retries it — an operation always failing with it is called 5
times, not returned immediately after 1. -/
theorem C1_counterexample :
    isRateLimitFailureSpec (PyError.httpError 500) = false ∧
    (backoffRun (α := ℕ) retriedByDecorator rateLimitOnBackoff
        (fun _ => Except.error (PyError.httpError 500)) 5).tries ≠ 1 := by
  refine ⟨rfl, ?_⟩
  have h5 : (backoffRun (α := ℕ) retriedByDecorator rateLimitOnBackoff
      (fun _ => Except.error (PyError.httpError 500)) 5).tries = 5 := rfl
  rw [h5]
  decide

/-- Claim C1, amended: a failure outside the decorator's retried tuple
(the three provider rate-limit exceptions and `requests` HTTPError of any
status) is returned to the caller immediately — one call, zero retries,
zero backoff sleeps, no Throttle call; an HTTPError, however, is retried
whatever its status, not only 429. -/
theorem C1_nonretried_immediate {α : Type} (e : PyError)
    (op : ℕ → Except PyError α) (h0 : op 0 = Except.error e)
    (hr : retriedByDecorator e = false) :
    (backoffRun retriedByDecorator rateLimitOnBackoff op 5 =
        ⟨Except.error e, 1, [], []⟩) ∧
    (∀ status : ℕ, retriedByDecorator (PyError.httpError status) = true) :=
  ⟨backoffRunAux_nonretried op e 0 5 (by decide) h0 hr, fun _ => rfl⟩

/-- Claim C1, witness: a generic non-tuple exception propagates at once. -/
theorem C1_witness :
    backoffRun (α := ℕ) retriedByDecorator rateLimitOnBackoff
        (fun _ => Except.error (PyError.otherError "boom")) 5 =
      ⟨Except.error (PyError.otherError "boom"), 1, [], []⟩ :=
  (C1_nonretried_immediate (PyError.otherError "boom") _ rfl rfl).1

/-- Claim C2, counterexample: an operation failing exactly once with a
classified rate-limit error before succeeding completes in 2 tries with
1 backoff cycle, but the number of Throttle resetWindow calls is 0, not
1 — the decorated wrapper of `rate_limit.py` installs a logging-only
`on_backoff` and never calls `APIRateLimiter.handle_backoff`. -/
theorem C2_counterexample :
    retriedByDecorator PyError.openaiRateLimit = true ∧
    (backoffRun retriedByDecorator rateLimitOnBackoff
        (fun n => if n = 0 then Except.error PyError.openaiRateLimit
                  else Except.ok (7:ℕ)) 5).result = Except.ok 7 ∧
    (backoffRun retriedByDecorator rateLimitOnBackoff
        (fun n => if n = 0 then Except.error PyError.openaiRateLimit
                  else Except.ok (7:ℕ)) 5).tries = 2 ∧
    (backoffRun retriedByDecorator rateLimitOnBackoff
        (fun n => if n = 0 then Except.error PyError.openaiRateLimit
                  else Except.ok (7:ℕ)) 5).throttleCalls.length ≠ 1 := by
  refine ⟨rfl, rfl, rfl, ?_⟩
  have h : (backoffRun retriedByDecorator rateLimitOnBackoff
      (fun n => if n = 0 then Except.error PyError.openaiRateLimit
                else Except.ok (7:ℕ)) 5).throttleCalls = [] := rfl
  rw [h]
  decide

/-- Claim C2, amended: backoff cycles sleep and log, but the retry layer
performs zero resetWindow calls on the Throttle, whatever the operation
and try budget. -/
theorem C2_no_reset_window {α : Type} (op : ℕ → Except PyError α)
    (maxTries : ℕ) :
    (backoffRun retriedByDecorator rateLimitOnBackoff op
      maxTries).throttleCalls = [] :=
  backoffRunAux_calls_nil op maxTries 0

/-- Claim C8: an operation failing with a classified rate-limit error on
every attempt is called exactly 5 times, with exponential waits
2^0, 2^1, 2^2, 2^3 between the calls, and the run ends with the Failure
of the 5th (last) call rather than succeeding or retrying forever. -/
theorem C8_gives_up_after_5 {α : Type} (op : ℕ → Except PyError α)
    (h : ∀ n, ∃ e, op n = Except.error e ∧ retriedByDecorator e = true) :
    (backoffRun retriedByDecorator rateLimitOnBackoff op 5).tries = 5 ∧
    (backoffRun retriedByDecorator rateLimitOnBackoff op 5).waits
        = [1, 2, 4, 8] ∧
    (backoffRun retriedByDecorator rateLimitOnBackoff op 5).result = op 4 := by
  obtain ⟨ht, hw, hres⟩ := backoffRunAux_all_retried op h 5 0 (by decide)
  refine ⟨ht, ?_, hres⟩
  show (backoffRunAux retriedByDecorator rateLimitOnBackoff op 0 5).waits = _
  rw [hw]
  norm_num [List.range_succ]

/-- Claim C8, witness: an operation always raising ResourceExhausted. -/
theorem C8_witness :
    (backoffRun (α := ℕ) retriedByDecorator rateLimitOnBackoff
        (fun _ => Except.error PyError.resourceExhausted) 5).tries = 5 ∧
    (backoffRun (α := ℕ) retriedByDecorator rateLimitOnBackoff
        (fun _ => Except.error PyError.resourceExhausted) 5).waits
        = [1, 2, 4, 8] ∧
    (backoffRun (α := ℕ) retriedByDecorator rateLimitOnBackoff
        (fun _ => Except.error PyError.resourceExhausted) 5).result
        = Except.error PyError.resourceExhausted :=
  C8_gives_up_after_5 (fun _ => Except.error PyError.resourceExhausted)
    (fun _ => ⟨PyError.resourceExhausted, rfl, rfl⟩)

/-- Closed form of `_check_rate_limit` for a provider present in the
policy table. -/
lemma check_rate_limit_spec (table : String → Option RateLimitConfig)
    (p : String) (cfg : RateLimitConfig) (t raw : ℚ) (s : LimiterState)
    (hc : table p = some cfg) :
    check_rate_limit table p t raw s =
      (if cfg.burst_limit ≤ (s.request_counts p).getD 0 ∧
          t - (s.last_request_time p).getD 0 < 60 / cfg.requests_per_minute
       then (true, 60 / cfg.requests_per_minute -
               (t - (s.last_request_time p).getD 0))
       else (false, generate_delay cfg raw)) := by
  unfold check_rate_limit
  rw [hc]
  by_cases hb : cfg.burst_limit ≤ (s.request_counts p).getD 0
  · by_cases ht : t - (s.last_request_time p).getD 0 <
        60 / cfg.requests_per_minute
    · simp [hb, ht]
    · simp [hb, ht]
  · simp [hb]

/-- Claim C3, counterexample: "google" is absent from the
`APIRateLimiter` policy table, and `handle_request` then imposes no delay
at all (0 seconds) — it does not substitute the default policy, whose
jitter would be at least its min_delay of 1/10 s. -/
theorem C3_counterexample :
    rate_limits "google" = none ∧
    (handle_request rate_limits "google" 0 0 (1/2) emptyLimiter).1 = 0 ∧
    ¬ ((1:ℚ)/10 ≤ (handle_request rate_limits "google" 0 0 (1/2)
        emptyLimiter).1) := by
  refine ⟨rfl, rfl, ?_⟩
  have h : (handle_request rate_limits "google" 0 0 (1/2) emptyLimiter).1 = 0 :=
    rfl
  rw [h]
  norm_num

/-- Claim C3, amended: for a provider key absent from the policy table,
`handle_request` never raises — it completes, applying zero delay (no
jitter, no burst sleep) and still records the request. -/
theorem C3_unknown_provider_no_delay (table : String → Option RateLimitConfig)
    (p : String) (t1 t2 raw : ℚ) (s : LimiterState) (h : table p = none) :
    handle_request table p t1 t2 raw s = (0, update_request_count p t2 s) := by
  simp [handle_request, check_rate_limit, h]

/-- Claim C3, witness: the unconfigured key "google". -/
theorem C3_witness :
    handle_request rate_limits "google" 3 4 (1/2) emptyLimiter =
      (0, update_request_count "google" 4 emptyLimiter) :=
  C3_unknown_provider_no_delay rate_limits "google" 3 4 (1/2) emptyLimiter rfl

/-- Claim C4: with the provider saturated (count at or above burst_limit)
and less than 60/rpm seconds elapsed since the stored timestamp,
`handle_request` sleeps exactly 60/rpm minus the elapsed time; with the
count below burst_limit, or at least 60/rpm elapsed, the burst branch
reports not-limited (no burst sleep). -/
theorem C4_burst_branch (table : String → Option RateLimitConfig)
    (p : String) (cfg : RateLimitConfig) (t1 t2 raw : ℚ) (s : LimiterState)
    (hc : table p = some cfg) :
    ((cfg.burst_limit ≤ (s.request_counts p).getD 0 ∧
        t1 - (s.last_request_time p).getD 0 < 60 / cfg.requests_per_minute) →
      (handle_request table p t1 t2 raw s).1 =
        60 / cfg.requests_per_minute -
          (t1 - (s.last_request_time p).getD 0)) ∧
    (((s.request_counts p).getD 0 < cfg.burst_limit ∨
        60 / cfg.requests_per_minute ≤ t1 - (s.last_request_time p).getD 0) →
      (check_rate_limit table p t1 raw s).1 = false) := by
  constructor
  · intro h
    simp [handle_request, check_rate_limit_spec table p cfg t1 raw s hc, h]
  · intro h
    rcases h with h | h
    · rw [check_rate_limit_spec table p cfg t1 raw s hc,
        if_neg (by rw [not_and_or]; exact Or.inl (not_le.2 h))]
    · rw [check_rate_limit_spec table p cfg t1 raw s hc,
        if_neg (by rw [not_and_or]; exact Or.inr (not_lt.2 h))]

/-- Claim C4, witness: anthropic (45 rpm, burst 3) at count 3, elapsed 1 s:
sleep is 60/45 − 1. -/
theorem C4_witness :
    (handle_request rate_limits "anthropic" 1 1 (1/2)
        ⟨setKey emptyLimiter.last_request_time "anthropic" 0,
         setKey emptyLimiter.request_counts "anthropic" 3⟩).1 =
      60 / (45:ℚ) - (1 - 0) :=
  (C4_burst_branch rate_limits "anthropic" ⟨45, 3, 1/10, 1⟩ 1 1 (1/2)
      ⟨setKey emptyLimiter.last_request_time "anthropic" 0,
       setKey emptyLimiter.request_counts "anthropic" 3⟩ rfl).1
    ⟨by decide, by norm_num [setKey, emptyLimiter]⟩

/-- Claim C5, counterexample: two requests at times 10 and 20 within one
window leave the stored per-provider timestamp at 10, the window start —
not 20, the time of the most recent request. -/
theorem C5_counterexample :
    (update_request_count "p" 20
        (update_request_count "p" 10 emptyLimiter)).last_request_time "p" =
      some 10 ∧ (10:ℚ) ≠ 20 := by
  constructor
  · norm_num [update_request_count, setKey, emptyLimiter]
  · norm_num

/-- Claim C5, amended: `_update_request_count` sets the stored timestamp
only on the provider's first request or when at least 60 s have elapsed
since the stored timestamp (a window reset); otherwise the timestamp is
left unchanged, so it records the window start, not the most recent
request. -/
theorem C5_last_time_is_window_start (p : String) (now : ℚ)
    (s : LimiterState) :
    (s.request_counts p = none →
      (update_request_count p now s).last_request_time p = some now) ∧
    (∀ c t0, s.request_counts p = some c → s.last_request_time p = some t0 →
      now - t0 < 60 →
      (update_request_count p now s).last_request_time p = some t0) ∧
    (∀ c t0, s.request_counts p = some c → s.last_request_time p = some t0 →
      60 ≤ now - t0 →
      (update_request_count p now s).last_request_time p = some now) := by
  refine ⟨?_, ?_, ?_⟩
  · intro hn
    norm_num [update_request_count, setKey, hn]
  · intro c t0 hc hl h
    simp [update_request_count, setKey, hc, hl, not_le.2 h]
  · intro c t0 hc hl h
    simp [update_request_count, setKey, hc, hl, h]

/-- Claim C5, witness: a second request 10 s into the window leaves the
stored timestamp at the window start. -/
theorem C5_witness :
    (update_request_count "p" 20
        ⟨setKey emptyLimiter.last_request_time "p" 10,
         setKey emptyLimiter.request_counts "p" 1⟩).last_request_time "p" =
      some 10 :=
  (C5_last_time_is_window_start "p" 20 _).2.1 1 10 rfl rfl (by norm_num)

/-- Claim C6: the flipped-lognormal jitter delay always lies in
[min_delay, max_delay] whatever the raw draw, and every `handle_request`
sleep for a configured provider lies in [0, max(max_delay, 60/rpm)] —
never negative, never unbounded. -/
theorem C6_delay_bounds (table : String → Option RateLimitConfig)
    (p : String) (cfg : RateLimitConfig) (t1 t2 raw : ℚ) (s : LimiterState)
    (hc : table p = some cfg) (h0 : 0 ≤ cfg.min_delay)
    (h1 : cfg.min_delay ≤ cfg.max_delay) (h2 : 0 < cfg.requests_per_minute)
    (h3 : (s.last_request_time p).getD 0 ≤ t1) :
    (cfg.min_delay ≤ generate_delay cfg raw ∧
      generate_delay cfg raw ≤ cfg.max_delay) ∧
    (0 ≤ (handle_request table p t1 t2 raw s).1 ∧
      (handle_request table p t1 t2 raw s).1 ≤
        max cfg.max_delay (60 / cfg.requests_per_minute)) := by
  have hd1 : cfg.min_delay ≤ max cfg.min_delay (min cfg.max_delay raw) :=
    le_max_left _ _
  have hd2 : max cfg.min_delay (min cfg.max_delay raw) ≤ cfg.max_delay :=
    max_le h1 (min_le_left _ _)
  have hrepr : generate_delay cfg raw =
      cfg.max_delay - (max cfg.min_delay (min cfg.max_delay raw)) +
        cfg.min_delay := rfl
  have hgen : cfg.min_delay ≤ generate_delay cfg raw ∧
      generate_delay cfg raw ≤ cfg.max_delay := by
    rw [hrepr]
    constructor <;> linarith
  refine ⟨hgen, ?_⟩
  have hneed : (0:ℚ) < 60 / cfg.requests_per_minute := by positivity
  by_cases hb : cfg.burst_limit ≤ (s.request_counts p).getD 0 ∧
      t1 - (s.last_request_time p).getD 0 < 60 / cfg.requests_per_minute
  · have hs : (handle_request table p t1 t2 raw s).1 =
        60 / cfg.requests_per_minute -
          (t1 - (s.last_request_time p).getD 0) := by
      simp [handle_request, check_rate_limit_spec table p cfg t1 raw s hc, hb]
    rw [hs]
    constructor
    · linarith [hb.2]
    · have h4 : (0:ℚ) ≤ t1 - (s.last_request_time p).getD 0 := by linarith
      have h5 : 60 / cfg.requests_per_minute -
          (t1 - (s.last_request_time p).getD 0) ≤
            60 / cfg.requests_per_minute := by linarith
      exact h5.trans (le_max_right _ _)
  · by_cases hg : generate_delay cfg raw > 0
    · have hs : (handle_request table p t1 t2 raw s).1 =
          generate_delay cfg raw := by
        simp [handle_request, check_rate_limit_spec table p cfg t1 raw s hc,
          hb, hg]
      rw [hs]
      exact ⟨le_of_lt hg, hgen.2.trans (le_max_left _ _)⟩
    · have hs : (handle_request table p t1 t2 raw s).1 = 0 := by
        simp [handle_request, check_rate_limit_spec table p cfg t1 raw s hc,
          hb, hg]
      rw [hs]
      exact ⟨le_refl 0, le_max_of_le_left (h0.trans h1)⟩

/-- Claim C6, witness: the anthropic policy at a concrete draw. -/
theorem C6_witness :
    ((1:ℚ)/10 ≤ generate_delay ⟨45, 3, 1/10, 1⟩ (1/2) ∧
      generate_delay ⟨45, 3, 1/10, 1⟩ (1/2) ≤ 1) ∧
    (0 ≤ (handle_request rate_limits "anthropic" 0 0 (1/2) emptyLimiter).1 ∧
      (handle_request rate_limits "anthropic" 0 0 (1/2) emptyLimiter).1 ≤
        max 1 (60 / 45)) :=
  C6_delay_bounds rate_limits "anthropic" ⟨45, 3, 1/10, 1⟩ 0 0 (1/2)
    emptyLimiter rfl (by norm_num) (by norm_num) (by norm_num)
    (by norm_num [emptyLimiter])

/-- Claim C7: for a provider with recorded state, the request count after
`_update_request_count` is 1 exactly when 60 s or more elapsed since the
stored timestamp, else the old count plus one; and immediately after a
backoff reset (`handle_backoff` with this provider in the details), the
next request leaves the count at exactly 1. -/
theorem C7_window_reset (p : String) (now t tN : ℚ) (s : LimiterState) :
    (∀ c t0, s.request_counts p = some c → s.last_request_time p = some t0 →
      (update_request_count p now s).request_counts p =
        some (if 60 ≤ now - t0 then 1 else c + 1)) ∧
    ((update_request_count p tN (handle_backoff (some p) t s)).request_counts p
        = some 1) := by
  constructor
  · intro c t0 hc hl
    by_cases h : 60 ≤ now - t0
    · simp [update_request_count, setKey, hc, hl, h]
    · simp [update_request_count, setKey, hc, hl, h]
  · by_cases h : 60 ≤ tN - t
    · simp [update_request_count, handle_backoff, setKey, h]
    · simp [update_request_count, handle_backoff, setKey, h]

/-- Claim C7, witness: a second request inside the window counts up to 2;
a request right after a backoff reset counts exactly 1. -/
theorem C7_witness :
    (update_request_count "p" 20
        ⟨setKey emptyLimiter.last_request_time "p" 10,
         setKey emptyLimiter.request_counts "p" 1⟩).request_counts "p" =
      some 2 ∧
    (update_request_count "p" 5
        (handle_backoff (some "p") 3 emptyLimiter)).request_counts "p" =
      some 1 := by
  constructor
  · have h := (C7_window_reset "p" 20 0 0
        ⟨setKey emptyLimiter.last_request_time "p" 10,
         setKey emptyLimiter.request_counts "p" 1⟩).1 1 10 rfl rfl
    norm_num at h
    exact h
  · exact (C7_window_reset "p" 0 3 5 emptyLimiter).2

/-- Claim C9, counterexample: the literal citation-service name
"semantic_scholar" does not map to itself under `_get_provider_key`; it
falls through every substring rule to "default". -/
theorem C9_counterexample :
    get_provider_key "semantic_scholar" = "default" ∧
    ("default" : String) ≠ "semantic_scholar" := by
  exact ⟨by decide, by decide⟩

/-- Claim C9, amended: `_get_provider_key` is a deterministic function
applying ordered first-match substring rules — gpt or an o1- prefix to
"openai", claude to "anthropic", gemini to "google", grok to "xai" — and
every unmatched name, including the literal citation-service names, maps
to "default". -/
theorem C9_resolve_rules :
    (∀ m, strContains m "gpt" = true → get_provider_key m = "openai") ∧
    (∀ m, strStartsWith m "o1-" = true → get_provider_key m = "openai") ∧
    (∀ m, strContains m "gpt" = false → strStartsWith m "o1-" = false →
      strContains m "claude" = true → get_provider_key m = "anthropic") ∧
    (∀ m, strContains m "gpt" = false → strStartsWith m "o1-" = false →
      strContains m "claude" = false → strContains m "gemini" = true →
      get_provider_key m = "google") ∧
    (∀ m, strContains m "gpt" = false → strStartsWith m "o1-" = false →
      strContains m "claude" = false → strContains m "gemini" = false →
      strContains m "grok" = true → get_provider_key m = "xai") ∧
    (∀ m, strContains m "gpt" = false → strStartsWith m "o1-" = false →
      strContains m "claude" = false → strContains m "gemini" = false →
      strContains m "grok" = false → get_provider_key m = "default") := by
  refine ⟨?_, ?_, ?_, ?_, ?_, ?_⟩ <;> intro m <;> intros <;>
    simp [get_provider_key, *]

/-- Claim C9, witness: a gpt model resolves to openai; the citation
service name resolves to default. -/
theorem C9_witness :
    get_provider_key "gpt-4o" = "openai" ∧
    get_provider_key "semantic_scholar" = "default" :=
  ⟨C9_resolve_rules.1 "gpt-4o" (by decide),
   C9_resolve_rules.2.2.2.2.2 "semantic_scholar" (by decide) (by decide)
     (by decide) (by decide) (by decide)⟩

/-- Claim C10: the decorated wrapper updates the provider's
last-request timestamp only when the wrapped operation returns
successfully; on any exception the handler state is unchanged (so a
failed call does not count toward minimum-interval spacing) and the
exception is re-raised. -/
theorem C10_timestamp_only_on_success {α : Type} (provider : String)
    (now opEnd : ℚ) (s : HandlerState) :
    (∀ e : PyError, (wrapper_body (α := α) provider now opEnd
        (Except.error e) s).2.2 = s) ∧
    (∀ a : α, (wrapper_body provider now opEnd (Except.ok a)
        s).2.2.last_request_time provider = opEnd) ∧
    (∀ e : PyError, (wrapper_body (α := α) provider now opEnd
        (Except.error e) s).1 = Except.error e) := by
  refine ⟨fun e => rfl, fun a => ?_, fun e => rfl⟩
  simp [wrapper_body]
